import Mathlib

/-!
Verification of the UQM SDL frame compositor and draw-command queue.

The compositor is embedded from `src/sc2/src/libs/graphics/sdl/sdl_common.c`
(`TFB_SwapBuffers`, `SetSystemRect`, `ClearSystemRect`).  The draw-command
queue is exposed to the C sources only through the FFI declarations in
`src/sc2/src/libs/graphics/sdl/rust_gfx.h` (`rust_dcq_*`); its implementation
is Rust code not present in the sources, so it is modelled from the spec.
-/

namespace UQM

/-- Redraw-urgency hints passed to `TFB_SwapBuffers`, mirroring the
`TFB_REDRAW_NO` / `TFB_REDRAW_FADING` / `TFB_REDRAW_EXPOSE` / `TFB_REDRAW_YES`
constants of the SDL graphics layer.  The code only ever compares the hint
against `TFB_REDRAW_NO` and rewrites it to `TFB_REDRAW_FADING`, so the enum
carrier is a faithful embedding of the C ints. -/
inductive RedrawHint where
  | no
  | fading
  | expose
  | yes
  deriving DecidableEq, Repr

/-- Screen indices into `SDL_Screens`: `TFB_SCREEN_MAIN` (0, `SDL_Screen`),
`TFB_SCREEN_EXTRA` (1), `TFB_SCREEN_TRANSITION` (2, `TransitionScreen`). -/
inductive Screen where
  | main
  | extra
  | transition
  deriving DecidableEq, Repr

/-- An `SDL_Rect`, with the C `int` fields modelled as unbounded `Int`
(no arithmetic is performed on them in the embedded code). -/
structure Rect where
  x : Int
  y : Int
  w : Int
  h : Int
  deriving DecidableEq, Repr

/-- One call through the `TFB_GRAPHICS_BACKEND` vtable
(`preprocess` / `screen` / `color` / `postprocess`).  The `alpha` and colour
components are C `Uint8`; the `Int` values stored here are the already
truncated (mod 256) values that the C call sites pass. -/
inductive BackendCall where
  | preprocess (forceFullRedraw : RedrawHint) (transitionAmount fadeAmount : Int)
  | screen (scr : Screen) (alpha : Int) (rect : Option Rect)
  | color (r g b a : Int) (rect : Option Rect)
  | postprocess
  deriving DecidableEq, Repr

/-- Recognises a `color` overlay call. -/
def BackendCall.isColor : BackendCall → Bool
  | .color _ _ _ _ _ => true
  | _ => false

/-- Recognises a `screen` call presenting the Transition screen. -/
def BackendCall.isTransitionLayer : BackendCall → Bool
  | .screen Screen.transition _ _ => true
  | _ => false

/-- The environment `TFB_SwapBuffers` reads besides its argument: the current
fade amount (`GetFadeAmount ()`), the current transition amount
(`TransitionAmount`), the dirty bounding-box validity flag (`TFB_BBox.valid`),
the transition clip rectangle (`TransitionClipRect`), and the system-box
override state (`system_box_active`, `system_box`). -/
structure SwapEnv where
  fade_amount : Int
  transition_amount : Int
  bbox_valid : Bool
  transitionClipRect : Rect
  system_box_active : Bool
  system_box : Rect
  deriving DecidableEq, Repr

/-- The cross-frame static state of `TFB_SwapBuffers`:
`last_fade_amount` and `last_transition_amount`, both initialised to 255. -/
structure SwapState where
  last_fade_amount : Int
  last_transition_amount : Int
  deriving DecidableEq, Repr

/-- The initial values of the statics: `last_fade_amount = 255`,
`last_transition_amount = 255`. -/
def initSwapState : SwapState := ⟨255, 255⟩

/-- The early-exit condition of `TFB_SwapBuffers` (sdl_common.c:283-286):
hint is `TFB_REDRAW_NO`, the bounding box is not valid, and both amounts are
255 on this frame and on the previous one. -/
def earlyExit (force_full_redraw : RedrawHint) (env : SwapEnv) (st : SwapState) : Prop :=
  force_full_redraw = RedrawHint.no ∧ env.bbox_valid = false ∧
    env.fade_amount = 255 ∧ env.transition_amount = 255 ∧
    st.last_fade_amount = 255 ∧ st.last_transition_amount = 255

instance (f : RedrawHint) (env : SwapEnv) (st : SwapState) :
    Decidable (earlyExit f env st) := by
  unfold earlyExit; infer_instance

/-- The body of `TFB_SwapBuffers` (sdl_common.c:274-330), embedded as a
function from the hint, the environment and the static state to the updated
static state and the sequence of backend vtable calls issued, in order.
`Uint8` arguments are truncated with `emod 256` exactly where the C call
converts an `int` expression to `Uint8`. -/
def TFB_SwapBuffers (force_full_redraw : RedrawHint) (env : SwapEnv) (st : SwapState) :
    SwapState × List BackendCall :=
  let fade_amount := env.fade_amount
  let transition_amount := env.transition_amount
  if earlyExit force_full_redraw env st then
    (st, [])
  else
    let force_full_redraw :=
      if force_full_redraw = RedrawHint.no ∧
          (fade_amount ≠ 255 ∨ transition_amount ≠ 255 ∨
            st.last_fade_amount ≠ 255 ∨ st.last_transition_amount ≠ 255) then
        RedrawHint.fading
      else force_full_redraw
    let st' : SwapState := ⟨fade_amount, transition_amount⟩
    let calls :=
      [BackendCall.preprocess force_full_redraw transition_amount fade_amount,
        BackendCall.screen Screen.main 255 none] ++
      (if transition_amount ≠ 255 then
        [BackendCall.screen Screen.transition ((255 - transition_amount).emod 256)
          (some env.transitionClipRect)]
      else []) ++
      (if fade_amount ≠ 255 then
        (if fade_amount < 255 then
          [BackendCall.color 0 0 0 ((255 - fade_amount).emod 256) none]
        else
          [BackendCall.color 255 255 255 ((fade_amount - 255).emod 256) none])
      else []) ++
      (if env.system_box_active then
        [BackendCall.screen Screen.main 255 (some env.system_box)]
      else []) ++
      [BackendCall.postprocess]
    (st', calls)

/-- The system-box override state of sdl_common.c:255-256:
`system_box_active` (statically initialised to `FALSE`) and `system_box`. -/
structure SysBoxState where
  system_box_active : Bool
  system_box : Rect
  deriving DecidableEq, Repr

/-- `SetSystemRect` (sdl_common.c:258-266): activates the override and stores
the rectangle (the C code copies corner/extent of the `RECT` argument into the
`SDL_Rect`). -/
def SetSystemRect (r : Rect) (_s : SysBoxState) : SysBoxState := ⟨true, r⟩

/-- `ClearSystemRect` (sdl_common.c:268-272): deactivates the override,
leaving the stored rectangle as it was. -/
def ClearSystemRect (s : SysBoxState) : SysBoxState := ⟨false, s.system_box⟩

/-- A call to one of the two system-box entry points. -/
inductive SysBoxOp where
  | set (r : Rect)
  | clear
  deriving DecidableEq, Repr

/-- Applies one system-box entry point call to the state. -/
def applySysBoxOp (s : SysBoxState) (op : SysBoxOp) : SysBoxState :=
  match op with
  | .set r => SetSystemRect r s
  | .clear => ClearSystemRect s

/-- Applies a sequence of system-box entry point calls, oldest first. -/
def applySysBoxOps (s : SysBoxState) (ops : List SysBoxOp) : SysBoxState :=
  ops.foldl applySysBoxOp s

/-- A draw command record, one constructor per `rust_dcq_push_*` entry point
declared in rust_gfx.h:84-95.  `Uint32` ids and colours are carried as `Nat`;
no arithmetic is performed on them. -/
inductive DrawCommand where
  | drawLine (x1 y1 x2 y2 : Int) (color : Nat)
  | drawRect (x y w h : Int) (color : Nat)
  | fillRect (x y w h : Int) (color : Nat)
  | drawImage (image_id : Nat) (x y : Int)
  | copy (src_rect : Rect) (src_screen : Int) (dst_x dst_y : Int)
  | copyToImage (image_id : Nat) (src_rect : Rect)
  | deleteImage (image_id : Nat)
  | waitSignal
  | reinitVideo (driver flags width height : Int)
  | setPalette (colormap_id : Nat)
  | scissorEnable (x y w h : Int)
  | scissorDisable
  deriving DecidableEq, Repr

/-- Modelled from the spec: the draw-command queue behind the `rust_dcq_*`
declarations of rust_gfx.h is Rust code absent from the sources.  Following
spec sections 3 and 4.1, the state is an ordered drainable sequence, the
accumulating open batch, and the batching depth counter. -/
structure DCQ where
  drainable : List DrawCommand
  pending : List DrawCommand
  depth : Nat
  deriving DecidableEq, Repr

/-- Modelled from the spec: the freshly initialised queue (`rust_dcq_init`)
is empty with batching depth 0. -/
def DCQ.init : DCQ := ⟨[], [], 0⟩

/-- Modelled from the spec: `push` (the `rust_dcq_push_*` family) appends to
the tail of the pending sequence — inside the current batch if batching is
active, otherwise as an immediately-drainable singleton batch; it never
reorders, coalesces or drops commands. -/
def DCQ.push (q : DCQ) (c : DrawCommand) : DCQ :=
  if q.depth = 0 then ⟨q.drainable ++ [c], q.pending, q.depth⟩
  else ⟨q.drainable, q.pending ++ [c], q.depth⟩

/-- Pushes a whole sequence of commands, first element first. -/
def DCQ.pushAll (q : DCQ) (cs : List DrawCommand) : DCQ :=
  cs.foldl DCQ.push q

/-- Modelled from the spec: `begin_batch` (`rust_dcq_batch`) increments the
batching depth; nestable. -/
def DCQ.batch (q : DCQ) : DCQ := ⟨q.drainable, q.pending, q.depth + 1⟩

/-- Modelled from the spec: `end_batch` (`rust_dcq_unbatch`) decrements the
batching depth; when the outermost `end_batch` brings the depth back to 0 the
entire accumulated batch becomes drainable as a contiguous block appended
after any already-drainable commands. -/
def DCQ.unbatch (q : DCQ) : DCQ :=
  if q.depth - 1 = 0 then ⟨q.drainable ++ q.pending, [], 0⟩
  else ⟨q.drainable, q.pending, q.depth - 1⟩

/-- Modelled from the spec: `flush` (`rust_dcq_flush`) atomically removes and
returns every currently drainable command in FIFO order, leaving any
still-open batch untouched. -/
def DCQ.flush (q : DCQ) : List DrawCommand × DCQ :=
  (q.drainable, ⟨[], q.pending, q.depth⟩)

/-- Modelled from the spec: `len` (`rust_dcq_len`) counts drainable plus
pending commands. -/
def DCQ.len (q : DCQ) : Nat := q.drainable.length + q.pending.length

/-- A concrete command used in scenario theorems. -/
def cmdA : DrawCommand := .fillRect 0 0 320 240 1

/-- A concrete command used in scenario theorems. -/
def cmdB : DrawCommand := .drawLine 0 0 319 239 2

/-- A concrete command used in scenario theorems. -/
def cmdC : DrawCommand := .drawRect 5 5 10 10 3



theorem pushAll_eq_of_depth_zero (cs : List DrawCommand) :
    ∀ q : DCQ, q.depth = 0 → DCQ.pushAll q cs = ⟨q.drainable ++ cs, q.pending, 0⟩ := by
  induction cs with
  | nil =>
      intro q h
      cases q
      simp_all [DCQ.pushAll]
  | cons c cs ih =>
      intro q h
      have hp : DCQ.push q c = ⟨q.drainable ++ [c], q.pending, 0⟩ := by
        cases q; simp_all [DCQ.push]
      calc DCQ.pushAll q (c :: cs) = DCQ.pushAll (DCQ.push q c) cs := by
            simp [DCQ.pushAll]
        _ = ⟨(q.drainable ++ [c]) ++ cs, q.pending, 0⟩ := by rw [hp]; exact ih _ rfl
        _ = ⟨q.drainable ++ (c :: cs), q.pending, 0⟩ := by simp

/-- C1: pushes made at batching depth zero are all immediately drainable, and a
subsequent flush removes and returns exactly those commands in push order
(FIFO), appended after whatever was already drainable, never reordering,
coalescing or dropping any. -/
theorem flush_returns_push_order :
    (∀ cs : List DrawCommand, (DCQ.pushAll DCQ.init cs).flush.fst = cs) ∧
    (∀ (q : DCQ) (cs : List DrawCommand), q.depth = 0 →
      (DCQ.pushAll q cs).flush.fst = q.drainable ++ cs) := by
  constructor
  · intro cs
    rw [pushAll_eq_of_depth_zero cs DCQ.init rfl]
    rfl
  · intro q cs h
    rw [pushAll_eq_of_depth_zero cs q h]
    rfl

/-- Witness for C1 at a concrete queue and command sequence. -/
theorem flush_returns_push_order_witness :
    (DCQ.pushAll ⟨[cmdA], [], 0⟩ [cmdB, cmdC]).flush.fst = [cmdA, cmdB, cmdC] := by
  have h := flush_returns_push_order.2 ⟨[cmdA], [], 0⟩ [cmdB, cmdC] rfl
  simpa using h

/-- C2: commands pushed while the batching depth is positive are not drainable
by flush; an inner end_batch releases nothing; the outermost end_batch makes
the whole accumulated batch drainable as one contiguous block appended after
the already-drainable commands; and in the scenario begin_batch, push A,
push B, end_batch, push C, a flush yields [A, B, C]. -/
theorem batch_holds_back :
    (∀ (q : DCQ) (c : DrawCommand), 0 < q.depth →
      ((q.push c).flush).fst = (q.flush).fst) ∧
    (∀ q : DCQ, 1 < q.depth → (q.unbatch).flush.fst = q.flush.fst) ∧
    (∀ q : DCQ, q.depth = 1 →
      (q.unbatch).drainable = q.drainable ++ q.pending ∧ (q.unbatch).depth = 0) ∧
    ((((DCQ.init.batch.push cmdA).push cmdB).unbatch.push cmdC).flush.fst
      = [cmdA, cmdB, cmdC]) := by
  refine ⟨?_, ?_, ?_, by decide⟩
  · intro q c h
    have hz : ¬ q.depth = 0 := by omega
    simp [DCQ.push, DCQ.flush, hz]
  · intro q h
    have hz : ¬ (q.depth - 1 = 0) := by omega
    simp [DCQ.unbatch, DCQ.flush, hz]
  · intro q h
    simp [DCQ.unbatch, h]

/-- Witness for C2 at concrete queues. -/
theorem batch_holds_back_witness :
    ((DCQ.push ⟨[cmdA], [cmdB], 1⟩ cmdC).flush).fst = [cmdA] ∧
    ((DCQ.unbatch ⟨[cmdA], [cmdB], 2⟩).flush.fst = [cmdA]) ∧
    ((DCQ.unbatch ⟨[cmdA], [cmdB], 1⟩).drainable = [cmdA, cmdB] ∧
      (DCQ.unbatch ⟨[cmdA], [cmdB], 1⟩).depth = 0) := by
  refine ⟨?_, ?_, ?_⟩
  · have h := batch_holds_back.1 ⟨[cmdA], [cmdB], 1⟩ cmdC (by decide)
    simpa using h
  · have h := batch_holds_back.2.1 ⟨[cmdA], [cmdB], 2⟩ (by decide)
    simpa using h
  · have h := batch_holds_back.2.2.1 ⟨[cmdA], [cmdB], 1⟩ rfl
    simpa using h

/-- C8: flush is idempotent on an emptied queue: from any queue state, a
second flush with no push in between returns an empty sequence. -/
theorem flush_idempotent (q : DCQ) : ((q.flush.snd).flush).fst = [] := rfl



/-- A concrete transition clip rectangle used in witnesses. -/
def rectClip : Rect := ⟨10, 20, 100, 50⟩

/-- A concrete system-box rectangle used in witnesses. -/
def rectSys : Rect := ⟨5, 5, 30, 40⟩

/-- A concrete steady-state environment: both amounts 255, nothing dirty,
system box inactive. -/
def envSteady : SwapEnv := ⟨255, 255, false, rectClip, false, rectSys⟩

/-- C3: with hint NoForcedRedraw, an invalid dirty bounding box, and both
amounts equal to 255 on this frame and the previous one, TFB_SwapBuffers
returns immediately: the static state is unchanged and no backend call is
issued. -/
theorem swap_early_exit (env : SwapEnv) (st : SwapState)
    (hb : env.bbox_valid = false) (hf : env.fade_amount = 255)
    (ht : env.transition_amount = 255) (hlf : st.last_fade_amount = 255)
    (hlt : st.last_transition_amount = 255) :
    TFB_SwapBuffers RedrawHint.no env st = (st, []) := by
  have h : earlyExit RedrawHint.no env st := ⟨rfl, hb, hf, ht, hlf, hlt⟩
  simp [TFB_SwapBuffers, h]

/-- Witness for C3 at the concrete steady-state input. -/
theorem swap_early_exit_witness :
    TFB_SwapBuffers RedrawHint.no envSteady ⟨255, 255⟩ = (⟨255, 255⟩, []) :=
  swap_early_exit envSteady ⟨255, 255⟩ rfl rfl rfl rfl rfl

/-- C9: a non-skipped call stores this frame's fade and transition amounts as
the previous-frame statics; the early-exit path leaves the statics unchanged,
and they are necessarily already 255/255 there. -/
theorem swap_records_amounts (f : RedrawHint) (env : SwapEnv) (st : SwapState) :
    (¬ earlyExit f env st →
      (TFB_SwapBuffers f env st).fst = ⟨env.fade_amount, env.transition_amount⟩) ∧
    (earlyExit f env st →
      (TFB_SwapBuffers f env st).fst = st ∧ st = ⟨255, 255⟩) := by
  constructor
  · intro h
    simp [TFB_SwapBuffers, h]
  · intro h
    have hst : st = ⟨255, 255⟩ := by
      obtain ⟨-, -, -, -, h5, h6⟩ := h
      cases st
      simp_all
    exact ⟨by simp [TFB_SwapBuffers, h], hst⟩

/-- Witness for C9: a fading frame records its amounts, and the steady-state
frame takes the early exit leaving the statics at 255/255. -/
theorem swap_records_amounts_witness :
    (TFB_SwapBuffers RedrawHint.no ⟨100, 200, false, rectClip, false, rectSys⟩
        ⟨255, 255⟩).fst = ⟨100, 200⟩ ∧
    ((TFB_SwapBuffers RedrawHint.no envSteady ⟨255, 255⟩).fst = ⟨255, 255⟩ ∧
      (⟨255, 255⟩ : SwapState) = ⟨255, 255⟩) := by
  constructor
  · exact (swap_records_amounts RedrawHint.no
      ⟨100, 200, false, rectClip, false, rectSys⟩ ⟨255, 255⟩).1 (by decide)
  · exact (swap_records_amounts RedrawHint.no envSteady ⟨255, 255⟩).2 (by decide)

/-- C5: with hint NoForcedRedraw, when any of the four amounts (fade or
transition, this frame or the previous one) differs from 255, the redraw
classification passed to the backend preprocess call is upgraded to Fading. -/
theorem swap_fading_upgrade (env : SwapEnv) (st : SwapState)
    (h : env.fade_amount ≠ 255 ∨ env.transition_amount ≠ 255 ∨
      st.last_fade_amount ≠ 255 ∨ st.last_transition_amount ≠ 255) :
    (TFB_SwapBuffers RedrawHint.no env st).snd.head? =
      some (BackendCall.preprocess RedrawHint.fading env.transition_amount
        env.fade_amount) := by
  have hne : ¬ earlyExit RedrawHint.no env st := by
    intro hx
    obtain ⟨-, -, h3, h4, h5, h6⟩ := hx
    rcases h with h | h | h | h <;> simp_all
  simp only [TFB_SwapBuffers]
  rw [if_neg hne, if_pos ⟨trivial, h⟩]
  simp

/-- Witness for C5 with a current fade amount of 100. -/
theorem swap_fading_upgrade_witness :
    (TFB_SwapBuffers RedrawHint.no ⟨100, 255, false, rectClip, false, rectSys⟩
        ⟨255, 255⟩).snd.head? =
      some (BackendCall.preprocess RedrawHint.fading 255 100) :=
  swap_fading_upgrade ⟨100, 255, false, rectClip, false, rectSys⟩ ⟨255, 255⟩
    (by decide)

/-- C10: with a hint other than NoForcedRedraw the early exit is never taken,
even in the all-255 steady state with nothing dirty: the issued sequence runs
from a preprocess call carrying the caller's hint unchanged to the final
postprocess call. -/
theorem swap_forced_hint (f : RedrawHint) (env : SwapEnv) (st : SwapState)
    (h : f ≠ RedrawHint.no) :
    (TFB_SwapBuffers f env st).snd.head? =
      some (BackendCall.preprocess f env.transition_amount env.fade_amount) ∧
    (TFB_SwapBuffers f env st).snd.getLast? = some BackendCall.postprocess := by
  have hne : ¬ earlyExit f env st := fun hx => h hx.1
  have hup : ¬ (f = RedrawHint.no ∧
      (env.fade_amount ≠ 255 ∨ env.transition_amount ≠ 255 ∨
        st.last_fade_amount ≠ 255 ∨ st.last_transition_amount ≠ 255)) :=
    fun hx => h hx.1
  simp only [TFB_SwapBuffers]
  rw [if_neg hne, if_neg hup]
  refine ⟨by simp, ?_⟩
  split_ifs <;> simp [List.getLast?]

/-- Witness for C10 with the exposure hint in the all-255 steady state. -/
theorem swap_forced_hint_witness :
    (TFB_SwapBuffers RedrawHint.expose envSteady ⟨255, 255⟩).snd.head? =
      some (BackendCall.preprocess RedrawHint.expose 255 255) ∧
    (TFB_SwapBuffers RedrawHint.expose envSteady ⟨255, 255⟩).snd.getLast? =
      some BackendCall.postprocess := by
  have h := swap_forced_hint RedrawHint.expose envSteady ⟨255, 255⟩ (by decide)
  simpa using h



/-- C4: on a non-skipped frame with the fade amount in its operating range
[0, 510], the issued sequence contains exactly one full-screen black color
overlay at alpha 255 - fade_amount when fade_amount < 255, exactly one
full-screen white color overlay at alpha fade_amount - 255 when
fade_amount > 255, and no color overlay at all when fade_amount = 255; at
most one overlay direction applies per frame, fade_amount = 0 gives black at
alpha 255 and fade_amount = 510 gives white at alpha 255. -/
theorem swap_fade_overlay (f : RedrawHint) (env : SwapEnv) (st : SwapState)
    (h : ¬ earlyExit f env st) (h0 : 0 ≤ env.fade_amount)
    (h1 : env.fade_amount ≤ 510) :
    (TFB_SwapBuffers f env st).snd.filter BackendCall.isColor =
      (if env.fade_amount < 255 then
        [BackendCall.color 0 0 0 (255 - env.fade_amount) none]
      else if 255 < env.fade_amount then
        [BackendCall.color 255 255 255 (env.fade_amount - 255) none]
      else []) := by
  simp only [TFB_SwapBuffers]
  rw [if_neg h]
  rcases lt_trichotomy env.fade_amount 255 with hf | hf | hf
  · have he : (255 - env.fade_amount).emod 256 = 255 - env.fade_amount :=
      Int.emod_eq_of_lt (by omega) (by omega)
    split_ifs <;> first | (exfalso; omega) | simp_all [BackendCall.isColor]
  · split_ifs <;> first | (exfalso; omega) | simp_all [BackendCall.isColor]
  · have he : (env.fade_amount - 255).emod 256 = env.fade_amount - 255 :=
      Int.emod_eq_of_lt (by omega) (by omega)
    split_ifs <;> first | (exfalso; omega) | simp_all [BackendCall.isColor]

/-- Witness for C4 at fade amounts 0, 510 and 255. -/
theorem swap_fade_overlay_witness :
    ((TFB_SwapBuffers RedrawHint.yes ⟨0, 255, false, rectClip, false, rectSys⟩
        ⟨255, 255⟩).snd.filter BackendCall.isColor =
      [BackendCall.color 0 0 0 255 none]) ∧
    ((TFB_SwapBuffers RedrawHint.yes ⟨510, 255, false, rectClip, false, rectSys⟩
        ⟨255, 255⟩).snd.filter BackendCall.isColor =
      [BackendCall.color 255 255 255 255 none]) ∧
    ((TFB_SwapBuffers RedrawHint.yes ⟨255, 255, false, rectClip, false, rectSys⟩
        ⟨255, 255⟩).snd.filter BackendCall.isColor = []) := by
  refine ⟨?_, ?_, ?_⟩
  · have h := swap_fade_overlay RedrawHint.yes
      ⟨0, 255, false, rectClip, false, rectSys⟩ ⟨255, 255⟩ (by decide) (by decide)
      (by decide)
    simpa using h
  · have h := swap_fade_overlay RedrawHint.yes
      ⟨510, 255, false, rectClip, false, rectSys⟩ ⟨255, 255⟩ (by decide) (by decide)
      (by decide)
    simpa using h
  · have h := swap_fade_overlay RedrawHint.yes
      ⟨255, 255, false, rectClip, false, rectSys⟩ ⟨255, 255⟩ (by decide) (by decide)
      (by decide)
    simpa using h

/-- C6: on a non-skipped frame with the transition amount in [0, 255], the
second issued call (right after preprocess) presents the Main screen over the
whole frame at alpha 255, and the issued sequence contains a Transition-screen
layer exactly when transition_amount differs from 255 — a single presentation
restricted to the caller-supplied transition clip rectangle at alpha
255 - transition_amount. -/
theorem swap_layers (f : RedrawHint) (env : SwapEnv) (st : SwapState)
    (h : ¬ earlyExit f env st) (h0 : 0 ≤ env.transition_amount)
    (h1 : env.transition_amount ≤ 255) :
    (TFB_SwapBuffers f env st).snd[1]? =
      some (BackendCall.screen Screen.main 255 none) ∧
    (TFB_SwapBuffers f env st).snd.filter BackendCall.isTransitionLayer =
      (if env.transition_amount = 255 then []
      else [BackendCall.screen Screen.transition (255 - env.transition_amount)
        (some env.transitionClipRect)]) := by
  simp only [TFB_SwapBuffers]
  rw [if_neg h]
  constructor
  · split_ifs <;> simp
  · rcases eq_or_ne env.transition_amount 255 with ht | ht
    · split_ifs <;> first | (exfalso; omega) |
        simp_all [BackendCall.isTransitionLayer]
    · have he : (255 - env.transition_amount).emod 256 =
          255 - env.transition_amount :=
        Int.emod_eq_of_lt (by omega) (by omega)
      split_ifs <;> first | (exfalso; omega) |
        simp_all [BackendCall.isTransitionLayer]

/-- Witness for C6 at transition amounts 200 and 255. -/
theorem swap_layers_witness :
    ((TFB_SwapBuffers RedrawHint.yes ⟨255, 200, false, rectClip, false, rectSys⟩
        ⟨255, 255⟩).snd[1]? = some (BackendCall.screen Screen.main 255 none) ∧
      (TFB_SwapBuffers RedrawHint.yes ⟨255, 200, false, rectClip, false, rectSys⟩
        ⟨255, 255⟩).snd.filter BackendCall.isTransitionLayer =
        [BackendCall.screen Screen.transition 55 (some rectClip)]) ∧
    ((TFB_SwapBuffers RedrawHint.yes envSteady ⟨255, 255⟩).snd.filter
        BackendCall.isTransitionLayer = []) := by
  refine ⟨?_, ?_⟩
  · have h := swap_layers RedrawHint.yes
      ⟨255, 200, false, rectClip, false, rectSys⟩ ⟨255, 255⟩ (by decide) (by decide)
      (by decide)
    simpa using h
  · have h := (swap_layers RedrawHint.yes envSteady ⟨255, 255⟩ (by decide)
      (by decide) (by decide)).2
    simpa [envSteady] using h

/-- C7: on a non-skipped frame with the system-box override active, the last
two issued calls are a presentation of the Main screen restricted to the
stored system-box rectangle at alpha 255 followed by the final postprocess
call, and every Transition-screen layer and color overlay occurs strictly
before that re-presentation; with the override inactive, no Main-screen
presentation restricted to a rectangle is issued at all.  The override is
active exactly when a SetSystemRect call is more recent than any
ClearSystemRect call. -/
theorem swap_system_box (f : RedrawHint) (env : SwapEnv) (st : SwapState)
    (h : ¬ earlyExit f env st) :
    (env.system_box_active = true →
      (TFB_SwapBuffers f env st).snd =
        (TFB_SwapBuffers f env st).snd.dropLast.dropLast ++
          [BackendCall.screen Screen.main 255 (some env.system_box),
            BackendCall.postprocess] ∧
      (TFB_SwapBuffers f env st).snd.dropLast.dropLast.filter
          (fun c => c.isTransitionLayer || c.isColor) =
        (TFB_SwapBuffers f env st).snd.filter
          (fun c => c.isTransitionLayer || c.isColor)) ∧
    (env.system_box_active = false →
      ∀ (a : Int) (r : Rect),
        BackendCall.screen Screen.main a (some r) ∉ (TFB_SwapBuffers f env st).snd) ∧
    (∀ (s : SysBoxState) (ops : List SysBoxOp) (r : Rect),
      (applySysBoxOps s (ops ++ [SysBoxOp.set r])).system_box_active = true ∧
      (applySysBoxOps s (ops ++ [SysBoxOp.clear])).system_box_active = false) := by
  refine ⟨?_, ?_, ?_⟩
  · intro hsb
    simp only [TFB_SwapBuffers]
    rw [if_neg h, hsb]
    split_ifs <;>
      simp_all [List.dropLast, BackendCall.isTransitionLayer, BackendCall.isColor]
  · intro hsb a r
    simp only [TFB_SwapBuffers]
    rw [if_neg h, hsb]
    split_ifs <;> simp_all
  · intro s ops r
    constructor <;>
      simp [applySysBoxOps, List.foldl_append, applySysBoxOp, SetSystemRect,
        ClearSystemRect]

/-- Witness for C7: an active override on a cross-fading frame, an inactive
override on another frame, and a concrete call history ending in
SetSystemRect. -/
theorem swap_system_box_witness :
    ((TFB_SwapBuffers RedrawHint.yes ⟨100, 200, false, rectClip, true, rectSys⟩
        ⟨255, 255⟩).snd =
      (TFB_SwapBuffers RedrawHint.yes ⟨100, 200, false, rectClip, true, rectSys⟩
        ⟨255, 255⟩).snd.dropLast.dropLast ++
        [BackendCall.screen Screen.main 255 (some rectSys),
          BackendCall.postprocess]) ∧
    ((BackendCall.screen Screen.main 255 (some rectSys)) ∉
      (TFB_SwapBuffers RedrawHint.yes envSteady ⟨255, 255⟩).snd) ∧
    (applySysBoxOps ⟨false, rectClip⟩ [SysBoxOp.clear, SysBoxOp.set rectSys]
        ).system_box_active = true := by
  refine ⟨?_, ?_, ?_⟩
  · exact ((swap_system_box RedrawHint.yes
      ⟨100, 200, false, rectClip, true, rectSys⟩ ⟨255, 255⟩ (by decide)).1 rfl).1
  · exact (swap_system_box RedrawHint.yes envSteady ⟨255, 255⟩ (by decide)).2.1
      rfl 255 rectSys
  · have h := (swap_system_box RedrawHint.yes envSteady ⟨255, 255⟩
      (by decide)).2.2 ⟨false, rectClip⟩ [SysBoxOp.clear] rectSys
    simpa using h.1

end UQM
